import Mathlib

/-!
Shallow embedding of the WEB_HW_14 FastAPI contact-manager backend
(src/services/auth.py, src/repository/users.py, src/repository/contacts.py,
src/routes/auth.py, src/routes/users.py), with theorems checking the
frozen claims about its specification.

Modelling conventions:
* the SQLAlchemy user/contact tables are lists of rows; `query(...).filter(p).first()`
  is the first row satisfying the filter; committing a mutation made through a
  fetched row object replaces that row in the list;
* a JWT is modelled as its claim set paired with the signing key and algorithm;
  `jwt.encode` builds that record and `jwt.decode` succeeds exactly when key and
  algorithm match and the token is not expired (signature forgery is out of scope);
* `datetime.utcnow()` is an integer number of seconds passed in as `now`;
* a Python `None` dereference (AttributeError) is a distinguished outcome of a
  handler, separate from an HTTPException.
-/

namespace HW14

/-- JWT claim set: the code always encodes a dict holding the subject email and
then adds iat, exp and (for access/refresh tokens) a scope string; email tokens
carry no scope, modelled as `none`. -/
structure Claims where
  sub : String
  iat : Int
  exp : Int
  scope : Option String
deriving DecidableEq, Repr

/-- A signed token: claim set plus the key and algorithm it was signed with. -/
structure Token where
  claims : Claims
  key : String
  alg : String
deriving DecidableEq, Repr

/-- jose jwt.encode: sign the claim set with the given key and algorithm. -/
def jwtEncode (c : Claims) (key alg : String) : Token :=
  ⟨c, key, alg⟩

/-- jose jwt.decode: verifies the signature (key and algorithm must match) and
the exp claim against the current time; returns the payload, or none for a
JWTError. -/
def jwtDecode (t : Token) (key : String) (algs : List String) (now : Int) : Option Claims :=
  if t.key = key ∧ t.alg ∈ algs ∧ now < t.claims.exp then some t.claims else none

/-- User row (src/database/models.py): email, hashed password, confirmed flag,
optional avatar URL, optional stored refresh token. -/
structure User where
  id : Nat
  email : String
  username : String
  password : String
  confirmed : Bool
  avatar : Option String
  refresh_token : Option Token
deriving DecidableEq, Repr

/-- Calendar date for contact birth dates. -/
structure Date where
  year : Int
  month : Nat
  day : Nat
deriving DecidableEq, Repr

/-- Contact row (src/database/models.py), owned by `user_id`. -/
structure Contact where
  id : Nat
  name : String
  last_name : String
  email : Option String
  phone : String
  born_date : Option Date
  user_id : Nat
deriving DecidableEq, Repr

/-! ## src/services/auth.py (class Auth) -/

/-- Auth.create_access_token: expiry is now + 15 minutes unless `expires_delta`
is given in seconds; Python tests the override with `if expires_delta:`, which
is False for `None` and for `0`, so a zero override falls back to 15 minutes.
Embeds iat, exp and scope=access_token. -/
def create_access_token (sub : String) (now : Int) (expires_delta : Option Int)
    (key alg : String) : Token :=
  let expire : Int :=
    match expires_delta with
    | some d => if d ≠ 0 then now + d else now + 15 * 60
    | none => now + 15 * 60
  jwtEncode ⟨sub, now, expire, some "access_token"⟩ key alg

/-- Auth.create_refresh_token: expiry is now + 7 days unless a truthy
`expires_delta` in seconds is given; embeds iat, exp and scope=refresh_token. -/
def create_refresh_token (sub : String) (now : Int) (expires_delta : Option Int)
    (key alg : String) : Token :=
  let expire : Int :=
    match expires_delta with
    | some d => if d ≠ 0 then now + d else now + 7 * 24 * 60 * 60
    | none => now + 7 * 24 * 60 * 60
  jwtEncode ⟨sub, now, expire, some "refresh_token"⟩ key alg

/-- Auth.create_email_token: expiry now + 7 days, no scope claim. -/
def create_email_token (sub : String) (now : Int) (key alg : String) : Token :=
  jwtEncode ⟨sub, now, now + 7 * 24 * 60 * 60, none⟩ key alg

/-- Errors raised as HTTPException by the handlers. -/
inductive AuthError where
  | unauthorized (detail : String)
  | badRequest (detail : String)
  | unprocessable (detail : String)
deriving DecidableEq, Repr

/-- Result of running a request handler: a response value, an HTTPException, or
an unhandled Python AttributeError from dereferencing None (named by the
attribute accessed). -/
inductive Outcome (α : Type) where
  | ok (v : α)
  | httpError (e : AuthError)
  | attributeError (attr : String)
deriving DecidableEq, Repr

/-- Auth.decode_refresh_token: decode, require scope=refresh_token, return sub;
JWTError maps to Unauthorized. (Every token built by this code base that
reaches this function carries a scope claim, so the KeyError path for a missing
scope key is folded into the scope-mismatch branch.) -/
def decode_refresh_token (t : Token) (key alg : String) (now : Int) :
    Except AuthError String :=
  match jwtDecode t key [alg] now with
  | some payload =>
      if payload.scope = some "refresh_token" then Except.ok payload.sub
      else Except.error (AuthError.unauthorized "Invalid scope for token")
  | none => Except.error (AuthError.unauthorized "Could not validate credentials")

/-- Auth.get_email_from_token: decode (no scope check) and return sub; JWTError
maps to 422 UnprocessableEntity. -/
def get_email_from_token (t : Token) (key alg : String) (now : Int) :
    Except AuthError String :=
  match jwtDecode t key [alg] now with
  | some payload => Except.ok payload.sub
  | none => Except.error (AuthError.unprocessable "Invalid token for email verification")

/-! ## src/repository/users.py -/

/-- repository.users.get_user_by_email:
`db.query(User).filter(User.email == email).first()` — the first row whose
email matches, or None. -/
def get_user_by_email (email : String) (db : List User) : Option User :=
  match db with
  | [] => none
  | u :: rest => if u.email = email then some u else get_user_by_email email rest

/-- Committing a mutation made through a fetched row object: the first list
entry equal to the fetched row is replaced by its mutated version. -/
def replaceFirstUser (u u2 : User) : List User → List User
  | [] => []
  | x :: xs => if x = u then u2 :: xs else x :: replaceFirstUser u u2 xs

/-- repository.users.update_token: set `user.refresh_token = token` and commit. -/
def update_token (user : User) (token : Option Token) (db : List User) : List User :=
  replaceFirstUser user { user with refresh_token := token } db

/-- repository.users.confirmed_email: look the user up by email and set
`confirmed = True`; with no matching user Python dereferences None
(AttributeError), modelled as `none`. -/
def confirmed_email_repo (email : String) (db : List User) : Option (List User) :=
  (get_user_by_email email db).map
    (fun user => replaceFirstUser user { user with confirmed := true } db)

/-- repository.users.update_avatar_url: look the user up by email, set the
avatar URL, commit, and return the mutated user; `none` models the
AttributeError on an absent user. -/
def update_avatar_url (email : String) (url : Option String) (db : List User) :
    Option (User × List User) :=
  (get_user_by_email email db).map
    (fun user =>
      let user2 := { user with avatar := url }
      (user2, replaceFirstUser user user2 db))

/-! ## src/repository/contacts.py -/

/-- Number of days of a Gregorian month (datetime.date arithmetic). -/
def daysInMonth (y : Int) (m : Nat) : Nat :=
  if m = 2 then
    if (y % 4 = 0 ∧ y % 100 ≠ 0) ∨ y % 400 = 0 then 29 else 28
  else if m = 4 ∨ m = 6 ∨ m = 9 ∨ m = 11 then 30
  else 31

/-- The calendar day after `d`. -/
def nextDay (d : Date) : Date :=
  if d.day < daysInMonth d.year d.month then ⟨d.year, d.month, d.day + 1⟩
  else if d.month < 12 then ⟨d.year, d.month + 1, 1⟩
  else ⟨d.year + 1, 1, 1⟩

/-- `d + timedelta(days=n)`. -/
def addDays (d : Date) : Nat → Date
  | 0 => d
  | n + 1 => nextDay (addDays d n)

/-- The SQL filter of repository.contacts.get_contacts_birthdays, with
`last_day = today + timedelta(days=7)`:
(extract month == last_day.month AND extract day <= last_day.day AND owned)
OR (extract month == today.month AND extract day >= today.day AND owned).
A NULL born_date satisfies neither branch. -/
def matchesBirthdayFilter (today last_day : Date) (uid : Nat) (c : Contact) : Bool :=
  match c.born_date with
  | none => false
  | some b =>
      (b.month = last_day.month ∧ b.day ≤ last_day.day ∧ c.user_id = uid) ∨
      (b.month = today.month ∧ b.day ≥ today.day ∧ c.user_id = uid)

/-- repository.contacts.get_contacts_birthdays: rows satisfying the filter
above, with `today = datetime.now().date()` passed in explicitly. -/
def get_contacts_birthdays (today : Date) (db : List Contact) (uid : Nat) :
    List Contact :=
  let last_day := addDays today 7
  db.filter (matchesBirthdayFilter today last_day uid)

/-- repository.contacts.get_contact:
`db.query(Contact).filter(and_(Contact.id == contact_id, Contact.user_id == user.id)).first()`. -/
def get_contact (contact_id : Nat) (db : List Contact) (uid : Nat) : Option Contact :=
  match db with
  | [] => none
  | c :: rest =>
      if c.id = contact_id ∧ c.user_id = uid then some c
      else get_contact contact_id rest uid

/-- Fields accepted by ContactModel (src/schemas.py). -/
structure ContactModel where
  name : String
  last_name : String
  email : Option String
  phone : String
  born_date : Option Date
deriving DecidableEq, Repr

/-- Commit of a mutation made through a fetched contact row object. -/
def replaceFirstContact (c c2 : Contact) : List Contact → List Contact
  | [] => []
  | x :: xs => if x = c then c2 :: xs else x :: replaceFirstContact c c2 xs

/-- repository.contacts.update_contact: run the same owner-scoped id query; if
a row is found overwrite its mutable fields and commit, else change nothing;
returns the found row (mutated) or None. -/
def update_contact (contact_id : Nat) (body : ContactModel) (db : List Contact)
    (uid : Nat) : Option Contact × List Contact :=
  match get_contact contact_id db uid with
  | none => (none, db)
  | some c =>
      let c2 := { c with name := body.name, last_name := body.last_name,
                         email := body.email, phone := body.phone,
                         born_date := body.born_date }
      (some c2, replaceFirstContact c c2 db)

/-- repository.contacts.remove_contact: run the owner-scoped id query; if a row
is found delete it and commit; returns the deleted row or None. -/
def remove_contact (contact_id : Nat) (db : List Contact) (uid : Nat) :
    Option Contact × List Contact :=
  match get_contact contact_id db uid with
  | none => (none, db)
  | some c => (some c, db.erase c)

/-! ## Session cache (redis client in src/services/auth.py / src/routes/users.py)

Entries are pickled User snapshots keyed by email with a 300 second TTL; the
claims under check only read entries inside the TTL, so expiry time is not
carried in the model. -/

/-- redis get: the entry stored under the key, if any. -/
def cacheGet (cache : List (String × User)) (k : String) : Option User :=
  (cache.find? (fun p => p.1 = k)).map (fun p => p.2)

/-- redis set: overwrite the entry stored under the key. -/
def cacheSet (cache : List (String × User)) (k : String) (v : User) :
    List (String × User) :=
  (k, v) :: cache.filter (fun p => p.1 ≠ k)

/-- Store plus session cache, the state a request handler acts on. -/
structure AppState where
  db : List User
  cache : List (String × User)
deriving DecidableEq, Repr

/-! ## src/routes/auth.py -/

/-- routes.auth.login: checks, in order, user absent (Invalid email), user
unconfirmed (Email is not confirmed), password mismatch (Invalid password),
each a 401; on success issues an access and refresh token and persists the
refresh token. The password hash check is abstracted as the `verify` argument
(Auth.verify_password); the final Bool reports whether `verify` was invoked. -/
def login (username password : String) (db : List User)
    (verify : String → String → Bool) (now : Int) (key alg : String) :
    (Outcome (Token × Token) × List User) × Bool :=
  match get_user_by_email username db with
  | none =>
      ((Outcome.httpError (AuthError.unauthorized "Invalid email"), db), false)
  | some user =>
      if !user.confirmed then
        ((Outcome.httpError (AuthError.unauthorized "Email is not confirmed"), db), false)
      else if !(verify password user.password) then
        ((Outcome.httpError (AuthError.unauthorized "Invalid password"), db), true)
      else
        let access := create_access_token user.email now none key alg
        let refresh := create_refresh_token user.email now none key alg
        ((Outcome.ok (access, refresh), update_token user (some refresh) db), true)

/-- routes.auth.refresh_token: decode the presented token expecting
scope=refresh_token, look the subject up, compare the presented token with the
stored one; on mismatch clear the stored token and raise 401; on match issue
and persist a fresh pair. When the subject matches no user, Python evaluates
`user.refresh_token` on None and raises AttributeError. -/
def refresh_handler (t : Token) (db : List User) (now : Int) (key alg : String) :
    Outcome (Token × Token) × List User :=
  match decode_refresh_token t key alg now with
  | Except.error e => (Outcome.httpError e, db)
  | Except.ok email =>
      match get_user_by_email email db with
      | none => (Outcome.attributeError "refresh_token", db)
      | some user =>
          if user.refresh_token ≠ some t then
            (Outcome.httpError (AuthError.unauthorized "Invalid refresh token"),
             update_token user none db)
          else
            let access := create_access_token email now none key alg
            let refresh := create_refresh_token email now none key alg
            (Outcome.ok (access, refresh), update_token user (some refresh) db)

/-- routes.auth.confirmed_email: recover the email from the token; 400 if no
such user; if already confirmed return the idempotent message without writing;
else set confirmed=true via the repository. -/
def confirmed_email_route (t : Token) (db : List User) (now : Int)
    (key alg : String) : Outcome String × List User :=
  match get_email_from_token t key alg now with
  | Except.error e => (Outcome.httpError e, db)
  | Except.ok email =>
      match get_user_by_email email db with
      | none => (Outcome.httpError (AuthError.badRequest "Verification error"), db)
      | some user =>
          if user.confirmed then (Outcome.ok "Your email is already confirmed", db)
          else
            match confirmed_email_repo email db with
            | some db2 => (Outcome.ok "Email confirmed", db2)
            | none => (Outcome.attributeError "confirmed", db)

/-- routes.auth.confirmed_email at the application level: the handler only
touches the user store; the session cache is left as it was. -/
def confirmed_email_app (t : Token) (st : AppState) (now : Int)
    (key alg : String) : Outcome String × AppState :=
  let r := confirmed_email_route t st.db now key alg
  (r.1, ⟨r.2, st.cache⟩)

/-- routes.auth.request_email: the handler reads `user.confirmed` before
checking `if user:`, so an unknown email dereferences None (AttributeError);
an already-confirmed user gets the idempotent message; otherwise the
confirmation email is scheduled (reported by the Bool) and the check-your-email
message returned. -/
def request_email_handler (email : String) (db : List User) :
    Outcome String × Bool :=
  match get_user_by_email email db with
  | none => (Outcome.attributeError "confirmed", false)
  | some user =>
      if user.confirmed then (Outcome.ok "Your email is already confirmed", false)
      else (Outcome.ok "Check your email for confirmation.", true)

/-! ## src/routes/users.py -/

/-- routes.users.update_avatar_user, after the external image host returned
`res_url`: update the avatar URL in the store, then overwrite the session
cache entry under the user email with the mutated snapshot (cache.set followed
by cache.expire 300). -/
def update_avatar_user_route (user : User) (res_url : String) (st : AppState) :
    Outcome User × AppState :=
  match update_avatar_url user.email (some res_url) st.db with
  | none => (Outcome.attributeError "avatar", st)
  | some (user2, db2) =>
      (Outcome.ok user2, ⟨db2, cacheSet st.cache user2.email user2⟩)

/-! ## Spec-side definition for the birthday window

Stated from the spec wording, to be compared with the SQL filter the code
runs: a birth date matches when its month and day, compared independently of
year, equal the month and day of one of the 8 days today .. today + 7. -/

/-- Window membership as the spec words it: the birth-date month/day falls in
the inclusive window [today, today + 7 days], year ignored. -/
def inBirthdayWindow (today : Date) (b : Date) : Bool :=
  (List.range 8).any (fun i =>
    let d := addDays today i
    d.month = b.month ∧ d.day = b.day)

/-! ## Helper lemmas -/

/-- The row returned by get_user_by_email carries the queried email. -/
theorem get_user_by_email_eq (e : String) :
    ∀ (db : List User) (u : User), get_user_by_email e db = some u → u.email = e := by
  intro db
  induction db with
  | nil => intro u h; simp [get_user_by_email] at h
  | cons a as ih =>
      intro u h
      rw [get_user_by_email] at h
      by_cases ha : a.email = e
      · rw [if_pos ha] at h
        cases h
        exact ha
      · rw [if_neg ha] at h
        exact ih u h

/-- Replacing the row found by get_user_by_email with a row carrying the same
email makes the same query return the replacement. -/
theorem get_user_by_email_replaceFirst (e : String) (user user2 : User)
    (h2 : user2.email = user.email) :
    ∀ db : List User, get_user_by_email e db = some user →
      get_user_by_email e (replaceFirstUser user user2 db) = some user2 := by
  intro db
  induction db with
  | nil => intro h; simp [get_user_by_email] at h
  | cons a as ih =>
      intro h
      rw [get_user_by_email] at h
      by_cases ha : a.email = e
      · rw [if_pos ha] at h
        cases h
        rw [replaceFirstUser, if_pos rfl, get_user_by_email,
          if_pos (by rw [h2]; exact ha)]
      · rw [if_neg ha] at h
        have hane : a ≠ user := by
          intro hcontra
          exact ha (hcontra ▸ get_user_by_email_eq e as user h)
        rw [replaceFirstUser, if_neg hane, get_user_by_email, if_neg ha]
        exact ih h

/-- Decoding a token at a time before its expiry, under the key and algorithm
it was signed with, returns its claim set. -/
theorem jwtDecode_encode (c : Claims) (key alg : String) (now : Int)
    (h : now < c.exp) :
    jwtDecode (jwtEncode c key alg) key [alg] now = some c := by
  rw [jwtEncode, jwtDecode, if_pos]
  exact ⟨rfl, by simp, h⟩

/-! ## Claims -/

/-- Claim C5: a token freshly issued by create_access_token decodes (under the
same secret and algorithm, at issuance time) to the same sub with
scope=access_token, and a token freshly issued by create_refresh_token decodes
through decode_refresh_token to the same sub, its payload carrying
scope=refresh_token. -/
theorem c5_token_issue_decode_roundtrip (email : String) (now : Int)
    (key alg : String) :
    (jwtDecode (create_access_token email now none key alg) key [alg] now).map
        Claims.sub = some email ∧
    (jwtDecode (create_access_token email now none key alg) key [alg] now).map
        Claims.scope = some (some "access_token") ∧
    decode_refresh_token (create_refresh_token email now none key alg) key alg now
        = Except.ok email ∧
    (jwtDecode (create_refresh_token email now none key alg) key [alg] now).map
        Claims.scope = some (some "refresh_token") := by
  have ha : jwtDecode (create_access_token email now none key alg) key [alg] now
      = some ⟨email, now, now + 15 * 60, some "access_token"⟩ :=
    jwtDecode_encode ⟨email, now, now + 15 * 60, some "access_token"⟩ key alg now
      (by show now < now + 15 * 60; omega)
  have hr : jwtDecode (create_refresh_token email now none key alg) key [alg] now
      = some ⟨email, now, now + 7 * 24 * 60 * 60, some "refresh_token"⟩ :=
    jwtDecode_encode ⟨email, now, now + 7 * 24 * 60 * 60, some "refresh_token"⟩
      key alg now (by show now < now + 7 * 24 * 60 * 60; omega)
  refine ⟨by rw [ha]; rfl, by rw [ha]; rfl, ?_, by rw [hr]; rfl⟩
  rw [decode_refresh_token, hr]
  rfl

/-- Claim C8, counterexample: with an explicit override of 0 seconds the
Python truthiness test `if expires_delta:` takes the default branch, so the
exp claim is issuance time + 15 minutes, not issuance time + 0 seconds as the
claim states for every explicit override. -/
theorem c8_zero_override_counterexample :
    ¬ (create_access_token "a@example.com" 0 (some 0) "secret" "HS256").claims.exp
        = 0 + 0 := by
  decide

/-- Claim C8 (amended): the exp claim of an access token equals issuance time
plus 15 minutes when no override or a zero override is given, and issuance
time plus the override seconds for every nonzero override; the token always
embeds iat = issuance time, exp, and scope=access_token. -/
theorem c8_access_token_expiry (sub : String) (now d : Int) (key alg : String) :
    (create_access_token sub now none key alg).claims
      = ⟨sub, now, now + 15 * 60, some "access_token"⟩ ∧
    (create_access_token sub now (some 0) key alg).claims
      = ⟨sub, now, now + 15 * 60, some "access_token"⟩ ∧
    (d ≠ 0 → (create_access_token sub now (some d) key alg).claims
      = ⟨sub, now, now + d, some "access_token"⟩) := by
  refine ⟨rfl, by simp [create_access_token, jwtEncode], fun hd => ?_⟩
  simp only [create_access_token, jwtEncode]
  rw [if_pos hd]

/-- Witness for c8_access_token_expiry at override 2 seconds. -/
theorem c8_access_token_expiry_witness :
    (2 : Int) ≠ 0 ∧
    (create_access_token "a@example.com" 5 (some 2) "secret" "HS256").claims
      = ⟨"a@example.com", 5, 5 + 2, some "access_token"⟩ :=
  ⟨by decide,
   (c8_access_token_expiry "a@example.com" 5 2 "secret" "HS256").2.2 (by decide)⟩

/-- Claim C4: login applies its checks in the order user absent, user
unconfirmed, password mismatch; each failure is Unauthorized with a detail
distinct from the other two, the store is unchanged, and the password verifier
is never invoked when an earlier check fails (final Bool of the result). -/
theorem c4_login_check_order (username password : String) (db : List User)
    (verify : String → String → Bool) (now : Int) (key alg : String) :
    (get_user_by_email username db = none →
      login username password db verify now key alg
        = ((Outcome.httpError (AuthError.unauthorized "Invalid email"), db), false)) ∧
    (∀ u, get_user_by_email username db = some u → u.confirmed = false →
      login username password db verify now key alg
        = ((Outcome.httpError (AuthError.unauthorized "Email is not confirmed"), db),
           false)) ∧
    (∀ u, get_user_by_email username db = some u → u.confirmed = true →
      verify password u.password = false →
      login username password db verify now key alg
        = ((Outcome.httpError (AuthError.unauthorized "Invalid password"), db), true)) ∧
    (AuthError.unauthorized "Invalid email"
        ≠ AuthError.unauthorized "Email is not confirmed" ∧
     AuthError.unauthorized "Invalid email"
        ≠ AuthError.unauthorized "Invalid password" ∧
     AuthError.unauthorized "Email is not confirmed"
        ≠ AuthError.unauthorized "Invalid password") := by
  refine ⟨fun h => ?_, fun u hu hc => ?_, fun u hu hc hv => ?_,
    by decide, by decide, by decide⟩
  · simp [login, h]
  · simp [login, hu, hc]
  · simp [login, hu, hc, hv]

/-- Witness for c4_login_check_order: each failing branch at a concrete store. -/
theorem c4_login_check_order_witness :
    login "a@x" "pw" [] (fun _ _ => false) 0 "k" "HS256"
      = ((Outcome.httpError (AuthError.unauthorized "Invalid email"), []), false) ∧
    login "a@x" "pw" [⟨1, "a@x", "alice", "hash", false, none, none⟩]
        (fun _ _ => false) 0 "k" "HS256"
      = ((Outcome.httpError (AuthError.unauthorized "Email is not confirmed"),
          [⟨1, "a@x", "alice", "hash", false, none, none⟩]), false) ∧
    login "a@x" "pw" [⟨1, "a@x", "alice", "hash", true, none, none⟩]
        (fun _ _ => false) 0 "k" "HS256"
      = ((Outcome.httpError (AuthError.unauthorized "Invalid password"),
          [⟨1, "a@x", "alice", "hash", true, none, none⟩]), true) :=
  ⟨(c4_login_check_order "a@x" "pw" [] (fun _ _ => false) 0 "k" "HS256").1 rfl,
   (c4_login_check_order "a@x" "pw" [⟨1, "a@x", "alice", "hash", false, none, none⟩]
      (fun _ _ => false) 0 "k" "HS256").2.1 _ rfl rfl,
   (c4_login_check_order "a@x" "pw" [⟨1, "a@x", "alice", "hash", true, none, none⟩]
      (fun _ _ => false) 0 "k" "HS256").2.2.1 _ rfl rfl rfl⟩

/-- Claim C1: when the presented token decodes with scope=refresh_token but
differs from the refresh token stored on the row of its subject, the refresh
handler answers Unauthorized (Invalid refresh token) and the stored refresh
token of that user is set to null in the resulting store. -/
theorem c1_refresh_mismatch_clears_token (t : Token) (db : List User) (now : Int)
    (key alg email : String) (user : User)
    (hdec : decode_refresh_token t key alg now = Except.ok email)
    (huser : get_user_by_email email db = some user)
    (hmis : user.refresh_token ≠ some t) :
    (refresh_handler t db now key alg).1
      = Outcome.httpError (AuthError.unauthorized "Invalid refresh token") ∧
    get_user_by_email email (refresh_handler t db now key alg).2
      = some { user with refresh_token := none } := by
  have h : refresh_handler t db now key alg
      = (Outcome.httpError (AuthError.unauthorized "Invalid refresh token"),
         update_token user none db) := by
    simp [refresh_handler, hdec, huser, hmis]
  rw [h]
  exact ⟨rfl, get_user_by_email_replaceFirst email user
    { user with refresh_token := none } rfl db huser⟩

/-- Sample mismatching refresh token for the C1 witness. -/
def c1tok : Token := ⟨⟨"a@x", 0, 100, some "refresh_token"⟩, "k", "HS256"⟩

/-- Sample user (stored refresh token null, hence mismatching) for the C1
witness. -/
def c1user : User := ⟨1, "a@x", "alice", "hash", true, none, none⟩

/-- Witness for c1_refresh_mismatch_clears_token on a concrete store. -/
theorem c1_refresh_mismatch_clears_token_witness :
    decode_refresh_token c1tok "k" "HS256" 0 = Except.ok "a@x" ∧
    get_user_by_email "a@x" [c1user] = some c1user ∧
    c1user.refresh_token ≠ some c1tok ∧
    ((refresh_handler c1tok [c1user] 0 "k" "HS256").1
        = Outcome.httpError (AuthError.unauthorized "Invalid refresh token") ∧
     get_user_by_email "a@x" (refresh_handler c1tok [c1user] 0 "k" "HS256").2
        = some { c1user with refresh_token := none }) :=
  ⟨rfl, by decide, by decide,
   c1_refresh_mismatch_clears_token c1tok [c1user] 0 "k" "HS256" "a@x" c1user
     rfl (by decide) (by decide)⟩

/-- Claim C9: a validly signed refresh token whose subject matches no stored
user makes the refresh handler dereference None — an unhandled AttributeError,
not an Unauthorized response. -/
theorem c9_refresh_unknown_subject_attribute_error (t : Token) (db : List User)
    (now : Int) (key alg email : String)
    (hdec : decode_refresh_token t key alg now = Except.ok email)
    (hnone : get_user_by_email email db = none) :
    refresh_handler t db now key alg = (Outcome.attributeError "refresh_token", db) := by
  simp [refresh_handler, hdec, hnone]

/-- Valid refresh token whose subject is absent from the store, for the C9
witness. -/
def c9tok : Token := ⟨⟨"ghost@x", 0, 100, some "refresh_token"⟩, "k", "HS256"⟩

/-- Witness for c9_refresh_unknown_subject_attribute_error on an empty store. -/
theorem c9_refresh_unknown_subject_attribute_error_witness :
    decode_refresh_token c9tok "k" "HS256" 0 = Except.ok "ghost@x" ∧
    get_user_by_email "ghost@x" [] = none ∧
    refresh_handler c9tok [] 0 "k" "HS256"
      = (Outcome.attributeError "refresh_token", []) :=
  ⟨rfl, rfl,
   c9_refresh_unknown_subject_attribute_error c9tok [] 0 "k" "HS256" "ghost@x"
     rfl rfl⟩

/-- Claim C6: when the confirmation token decodes to an email, the handler
fails with BadRequest and leaves the store unchanged if no user carries that
email; returns the already-confirmed message and leaves the store unchanged if
the user is confirmed; and otherwise reports success with the confirmed flag
of that user set to true in the resulting store. -/
theorem c6_confirmed_email_behaviour (t : Token) (db : List User) (now : Int)
    (key alg email : String)
    (hdec : get_email_from_token t key alg now = Except.ok email) :
    (get_user_by_email email db = none →
      confirmed_email_route t db now key alg
        = (Outcome.httpError (AuthError.badRequest "Verification error"), db)) ∧
    (∀ user, get_user_by_email email db = some user → user.confirmed = true →
      confirmed_email_route t db now key alg
        = (Outcome.ok "Your email is already confirmed", db)) ∧
    (∀ user, get_user_by_email email db = some user → user.confirmed = false →
      (confirmed_email_route t db now key alg).1 = Outcome.ok "Email confirmed" ∧
      get_user_by_email email (confirmed_email_route t db now key alg).2
        = some { user with confirmed := true }) := by
  refine ⟨fun h => ?_, fun user hu hc => ?_, fun user hu hc => ?_⟩
  · simp [confirmed_email_route, hdec, h]
  · simp [confirmed_email_route, hdec, hu, hc]
  · have hrepo : confirmed_email_repo email db
        = some (replaceFirstUser user { user with confirmed := true } db) := by
      rw [confirmed_email_repo, hu]
      rfl
    have h : confirmed_email_route t db now key alg
        = (Outcome.ok "Email confirmed",
           replaceFirstUser user { user with confirmed := true } db) := by
      simp [confirmed_email_route, hdec, hu, hc, hrepo]
    rw [h]
    exact ⟨rfl, get_user_by_email_replaceFirst email user
      { user with confirmed := true } rfl db hu⟩

/-- Valid confirmation token for the C6 witness. -/
def c6tok : Token := ⟨⟨"b@x", 0, 100, none⟩, "k", "HS256"⟩

/-- Unconfirmed sample user for the C6 witness. -/
def c6user : User := ⟨2, "b@x", "bob", "hash", false, none, none⟩

/-- Witness for c6_confirmed_email_behaviour: all three branches at concrete
stores. -/
theorem c6_confirmed_email_behaviour_witness :
    get_email_from_token c6tok "k" "HS256" 0 = Except.ok "b@x" ∧
    confirmed_email_route c6tok [] 0 "k" "HS256"
      = (Outcome.httpError (AuthError.badRequest "Verification error"), []) ∧
    confirmed_email_route c6tok [{ c6user with confirmed := true }] 0 "k" "HS256"
      = (Outcome.ok "Your email is already confirmed",
         [{ c6user with confirmed := true }]) ∧
    ((confirmed_email_route c6tok [c6user] 0 "k" "HS256").1
        = Outcome.ok "Email confirmed" ∧
     get_user_by_email "b@x" (confirmed_email_route c6tok [c6user] 0 "k" "HS256").2
        = some { c6user with confirmed := true }) :=
  ⟨rfl,
   (c6_confirmed_email_behaviour c6tok [] 0 "k" "HS256" "b@x" rfl).1 rfl,
   (c6_confirmed_email_behaviour c6tok [{ c6user with confirmed := true }] 0 "k"
      "HS256" "b@x" rfl).2.1 _ rfl rfl,
   (c6_confirmed_email_behaviour c6tok [c6user] 0 "k" "HS256" "b@x"
      rfl).2.2 _ rfl rfl⟩

/-- Claim C10: the resend-confirmation handler reads the confirmed flag before
checking existence, so an unknown email is an unhandled AttributeError rather
than a clean response; when the user exists the later existence guard always
passes: a confirmed user gets the idempotent message and no email, an
unconfirmed user gets the check-your-email message with the email scheduled. -/
theorem c10_request_email_deref_before_guard (email : String) (db : List User) :
    (get_user_by_email email db = none →
      request_email_handler email db = (Outcome.attributeError "confirmed", false)) ∧
    (∀ u, get_user_by_email email db = some u → u.confirmed = true →
      request_email_handler email db
        = (Outcome.ok "Your email is already confirmed", false)) ∧
    (∀ u, get_user_by_email email db = some u → u.confirmed = false →
      request_email_handler email db
        = (Outcome.ok "Check your email for confirmation.", true)) := by
  refine ⟨fun h => ?_, fun u hu hc => ?_, fun u hu hc => ?_⟩
  · simp [request_email_handler, h]
  · simp [request_email_handler, hu, hc]
  · simp [request_email_handler, hu, hc]

/-- Witness for c10_request_email_deref_before_guard at concrete stores. -/
theorem c10_request_email_deref_before_guard_witness :
    request_email_handler "nobody@x" [] = (Outcome.attributeError "confirmed", false) ∧
    request_email_handler "a@x" [⟨1, "a@x", "alice", "hash", true, none, none⟩]
      = (Outcome.ok "Your email is already confirmed", false) ∧
    request_email_handler "a@x" [⟨1, "a@x", "alice", "hash", false, none, none⟩]
      = (Outcome.ok "Check your email for confirmation.", true) :=
  ⟨(c10_request_email_deref_before_guard "nobody@x" []).1 rfl,
   (c10_request_email_deref_before_guard "a@x"
      [⟨1, "a@x", "alice", "hash", true, none, none⟩]).2.1 _ rfl rfl,
   (c10_request_email_deref_before_guard "a@x"
      [⟨1, "a@x", "alice", "hash", false, none, none⟩]).2.2 _ rfl rfl⟩

/-- The owner-scoped contact query returns none when every row carrying the
queried id belongs to a different owner. -/
theorem get_contact_eq_none (contact_id uid : Nat) :
    ∀ db : List Contact, (∀ c ∈ db, c.id = contact_id → c.user_id ≠ uid) →
      get_contact contact_id db uid = none := by
  intro db
  induction db with
  | nil => intro _; rfl
  | cons a as ih =>
      intro h
      rw [get_contact, if_neg]
      · exact ih (fun c hc => h c (List.mem_cons_of_mem a hc))
      · rintro ⟨h1, h2⟩
        exact h a (List.mem_cons_self a as) h1 h2

/-- Claim C7: for a contact id every row of which belongs to a different
owner, get returns not-found and update and delete return not-found while
leaving the table unchanged — no cross-owner read, write or delete. -/
theorem c7_cross_owner_not_found (contact_id uid : Nat) (db : List Contact)
    (body : ContactModel)
    (h : ∀ c ∈ db, c.id = contact_id → c.user_id ≠ uid) :
    get_contact contact_id db uid = none ∧
    update_contact contact_id body db uid = (none, db) ∧
    remove_contact contact_id db uid = (none, db) := by
  have hg : get_contact contact_id db uid = none := get_contact_eq_none _ _ db h
  exact ⟨hg, by rw [update_contact, hg], by rw [remove_contact, hg]⟩

/-- Contact owned by user 2 for the C7 witness. -/
def c7contact : Contact := ⟨1, "Jane", "Doe", none, "+1000", none, 2⟩

/-- Replacement fields for the C7 witness. -/
def c7body : ContactModel := ⟨"X", "Y", none, "+2000", none⟩

/-- Witness for c7_cross_owner_not_found: caller 1 against a row of owner 2. -/
theorem c7_cross_owner_not_found_witness :
    (∀ c ∈ [c7contact], c.id = 1 → c.user_id ≠ 1) ∧
    (get_contact 1 [c7contact] 1 = none ∧
     update_contact 1 c7body [c7contact] 1 = (none, [c7contact]) ∧
     remove_contact 1 [c7contact] 1 = (none, [c7contact])) :=
  ⟨by decide, c7_cross_owner_not_found 1 1 [c7contact] c7body (by decide)⟩

/-- The rolling window starting on 2023-03-10, for the C2 theorem. -/
def c2today : Date := ⟨2023, 3, 10⟩

/-- Contact of owner 1 whose birthday month/day (March 18) is 8 days after
2023-03-10, for the C2 theorem. -/
def c2contact : Contact := ⟨1, "Jane", "Doe", none, "+1000", some ⟨1990, 3, 18⟩, 1⟩

/-- Claim C2: the claimed window semantics fail on the code. With
today = 2023-03-10 the window is [Mar 10, Mar 17]; a birth date of March 18 is
8 days out (it equals the month/day of today + 8) and is outside the window,
yet the SQL filter returns the contact: when today and today + 7 share a
month, the OR of (month = last.month AND day <= last.day) and
(month = today.month AND day >= today.day) accepts every day of that month. -/
theorem c2_birthdays_filter_counterexample :
    inBirthdayWindow c2today ⟨1990, 3, 18⟩ = false ∧
    (addDays c2today 8).month = 3 ∧ (addDays c2today 8).day = 18 ∧
    get_contacts_birthdays c2today [c2contact] 1 = [c2contact] := by
  refine ⟨by decide, by decide, by decide, by decide⟩

/-- Unconfirmed user whose snapshot sits in the session cache, for the C3
theorem. -/
def c3user : User := ⟨1, "a@x", "alice", "hash", false, none, none⟩

/-- Valid confirmation token for c3user. -/
def c3tok : Token := ⟨⟨"a@x", 0, 100, none⟩, "k", "HS256"⟩

/-- Store and cache both holding the unconfirmed snapshot of c3user. -/
def c3state : AppState := ⟨[c3user], [("a@x", c3user)]⟩

/-- Claim C3: the claim fails on the confirmation path. Confirming the email
of c3user sets confirmed = true in the store, but the handler never touches
the session cache, so a cache read under the same key still observes the
pre-mutation snapshot with confirmed = false. The avatar path, by contrast,
does overwrite the cache entry with the mutated snapshot. -/
theorem c3_confirmation_leaves_stale_cache :
    ((get_user_by_email "a@x" (confirmed_email_app c3tok c3state 0 "k" "HS256").2.db).map
        User.confirmed = some true ∧
     cacheGet (confirmed_email_app c3tok c3state 0 "k" "HS256").2.cache "a@x"
        = some c3user ∧
     c3user.confirmed = false) ∧
    cacheGet (update_avatar_user_route c3user "http://img/x" c3state).2.cache "a@x"
        = some { c3user with avatar := some "http://img/x" } := by
  refine ⟨⟨by decide, by decide, by decide⟩, by decide⟩

end HW14
